import Mathlib

/-!
Verification of the GoSlice slicing pipeline.

This file gives a shallow embedding of the parts of GoSlice that the
checked claims talk about:

* the point filter of `clipperClipper.GenerateLayerParts` (clip/clipper.go),
* the offset deltas of `clipperClipper.Inset` (clip/clipper.go),
* the scanline fill of `clipperClipper.Fill` / `getLinearFill` (clip/clipper.go),
* the final polygon filter of `layer.makePolygons` and `layer.removeLastPoint`
  (the slicer's layer stitching),
* `FullSupport`, `supportDetectorModifier.Modify` and
  `supportGeneratorModifier.Modify` (the support modifiers),
* `PreLayer.Render` (the per-layer g-code prelude).

The external polygon library (github.com/aligator/go.clipper) is not part of
the repository; its boolean and offset operations are therefore treated
symbolically: either as recorded call descriptions (for claims about which
offsets a call applies) or as abstract function parameters (for claims about
control flow and attribute bookkeeping).  Machine integers are modelled as
unbounded `Int`: all quantities involved are micrometer coordinates far below
the `int64`/`CInt` overflow range, and no claim concerns overflow.
-/

set_option maxRecDepth 4000

/-- A 2D point with integer micrometer coordinates (data.MicroPoint). -/
structure MicroPoint where
  x : Int
  y : Int
  deriving DecidableEq, Repr

/-- A path: an ordered sequence of micrometer points (data.Path). -/
abbrev MPath := List MicroPoint

/-- data.MicroPoint.Sub: componentwise subtraction. -/
def MicroPoint.sub (a b : MicroPoint) : MicroPoint :=
  ⟨a.x - b.x, a.y - b.y⟩

/-- The squared magnitude of a vector, used by the distance comparisons. -/
def sizeSq (v : MicroPoint) : Int :=
  v.x * v.x + v.y * v.y

/-- Modelled from the spec: data.MicroPoint.ShorterThanOrEqual(d) compares the
squared magnitude against d squared (the data package is not part of src/). -/
def shorterThanOrEqual (v : MicroPoint) (d : Int) : Bool :=
  sizeSq v ≤ d * d

/-- Modelled from the spec: data.MicroPoint.ShorterThan(d), strict version. -/
def shorterThan (v : MicroPoint) (d : Int) : Bool :=
  sizeSq v < d * d

/-!
## GenerateLayerParts point filter (clip/clipper.go, lines 117-143)

The Go loop walks the polygon by index `j`, keeping index 0 unconditionally
and comparing every later point against the previously *kept* index `prev`:

    prev := 0
    for j, layerPoint := range layerPolygon {
        if j == 0 { path = append(path, layerPolygon[0]); continue }
        if layerPoint.Sub(layerPolygon[prev]).ShorterThanOrEqual(100) { continue }
        path = append(path, layerPoint)
        prev = j
    }
-/

/-- The filter loop of GenerateLayerParts.  `rest` is the remaining suffix of
`poly` starting at index `j`; `prev` is the index of the last kept point. -/
def filterAux (poly : List MicroPoint) : List MicroPoint → Nat → Nat → List MicroPoint
  | [], _, _ => []
  | q :: qs, j, prev =>
    if shorterThanOrEqual (q.sub (poly.getD prev ⟨0, 0⟩)) 100 then
      filterAux poly qs (j + 1) prev
    else
      q :: filterAux poly qs (j + 1) j

/-- The per-polygon point filter of GenerateLayerParts. -/
def filterPoly (poly : List MicroPoint) : List MicroPoint :=
  match poly with
  | [] => []
  | p :: rest => p :: filterAux poly rest 1 0

/-- Dropping loop of `filterPolyClaimed`, carrying the previously kept point. -/
def filterClaimedAux (prev : MicroPoint) : List MicroPoint → List MicroPoint
  | [] => []
  | q :: qs =>
    if shorterThan (q.sub prev) 100 then filterClaimedAux prev qs
    else q :: filterClaimedAux q qs

/-- The point filter as the sentence of claim C3 words it: a point is dropped
exactly when it is strictly closer than 100 micrometers to the previously
kept point (written for refinement comparison with `filterPoly`). -/
def filterPolyClaimed (poly : List MicroPoint) : List MicroPoint :=
  match poly with
  | [] => []
  | p :: rest => p :: filterClaimedAux p rest

/-- Point-carrying form of the kept/dropped decision: a point is dropped
exactly when its distance to the previously kept point is at most 100. -/
def filterLE (prev : MicroPoint) : List MicroPoint → List MicroPoint
  | [] => []
  | q :: qs =>
    if shorterThanOrEqual (q.sub prev) 100 then filterLE prev qs
    else q :: filterLE q qs

theorem filterAux_eq_filterLE (poly : List MicroPoint) :
    ∀ (rest : List MicroPoint) (j prev : Nat), poly.drop j = rest →
      filterAux poly rest j prev = filterLE (poly.getD prev ⟨0, 0⟩) rest := by
  intro rest
  induction rest with
  | nil => intro j prev _; rfl
  | cons q qs ih =>
    intro j prev hdrop
    have hq : poly.getD j ⟨0, 0⟩ = q := by
      have h0 : poly[j]? = some q := by
        have := List.getElem?_drop poly j 0
        rw [hdrop] at this
        simpa using this.symm
      simp [List.getD_eq_getElem?_getD, h0]
    have hqs : poly.drop (j + 1) = qs := by
      have : List.drop 1 (List.drop j poly) = List.drop (j + 1) poly := by
        rw [List.drop_drop]
      rw [← this, hdrop]
      rfl
    by_cases h : shorterThanOrEqual (q.sub (poly.getD prev ⟨0, 0⟩)) 100 = true
    · simp only [filterAux, filterLE, h, if_pos]
      exact ih (j + 1) prev hqs
    · simp only [filterAux, filterLE, h, if_neg, Bool.not_eq_true]
      rw [ih (j + 1) j hqs, hq]

/-- Claim C3 (amended): in GenerateLayerParts the first point of a polygon is
always kept, and a later point is dropped exactly when its distance to the
previously kept point is at most 100 micrometers (ShorterThanOrEqual); points
strictly farther than 100 micrometers are kept. -/
theorem claim_C3_amended (p : MicroPoint) (rest : List MicroPoint) :
    filterPoly (p :: rest) = p :: filterLE p rest := by
  have h := filterAux_eq_filterLE (p :: rest) rest 1 0 rfl
  simp [filterPoly, h, List.getD]

/-- Claim C3 counterexample: the polygon [(0,0), (100,0)] has its second point
at distance exactly 100 micrometers from the first.  The claim says points at
distance 100 micrometers or more are kept (`filterPolyClaimed` keeps it), but
the code drops it: the comparison is ShorterThanOrEqual(100), not strict. -/
theorem claim_C3_counterexample :
    filterPoly [⟨0, 0⟩, ⟨100, 0⟩] = [⟨0, 0⟩]
    ∧ filterPolyClaimed [⟨0, 0⟩, ⟨100, 0⟩] = [⟨0, 0⟩, ⟨100, 0⟩]
    ∧ ([(⟨0, 0⟩ : MicroPoint)] ≠ [⟨0, 0⟩, ⟨100, 0⟩]) := by
  refine ⟨by decide, by decide, by decide⟩

/-!
## layer.makePolygons final filter and layer.removeLastPoint

The slicer (the `slice` package) stitches segments into polygons, then in the
final pass (snapDistance = 1000) closes nearly-finished polygons, measures
their length (breaking out early once the length exceeds the snap distance)
and keeps only non-nil, closed polygons whose measured length is strictly
greater than 1000 micrometers.
-/

/-- Modelled from the spec: an integer (truncated) square root, used for
data.MicroPoint.Size (Euclidean length in integer micrometers; the data
package is not part of src/).  `fuel` bounds the linear search; `fuel = n`
always suffices. -/
def isqrtGo (n : Nat) : Nat → Nat → Nat
  | 0, k => k
  | fuel + 1, k => if (k + 1) * (k + 1) ≤ n then isqrtGo n fuel (k + 1) else k

/-- Modelled from the spec: data.MicroPoint.Size, the Euclidean length of a
vector truncated to integer micrometers. -/
def sizeInt (v : MicroPoint) : Int :=
  Int.ofNat (isqrtGo (sizeSq v).toNat (sizeSq v).toNat 0)

theorem sizeInt_nonneg (v : MicroPoint) : 0 ≤ sizeInt v := by
  simp [sizeInt]

/-- Total length of a path from a previous point (sum of segment sizes). -/
def pathLengthAux (prev : MicroPoint) : List MicroPoint → Int
  | [] => 0
  | q :: qs => sizeInt (q.sub prev) + pathLengthAux q qs

/-- Total length of a path: the sum of the Euclidean sizes of its segments
(the first point contributes nothing, matching the `n == 0` skip in Go). -/
def pathLength : MPath → Int
  | [] => 0
  | p :: rest => pathLengthAux p rest

theorem pathLengthAux_nonneg (rest : List MicroPoint) :
    ∀ prev, 0 ≤ pathLengthAux prev rest := by
  induction rest with
  | nil => intro prev; simp [pathLengthAux]
  | cons q qs ih =>
    intro prev
    have := sizeInt_nonneg (q.sub prev)
    have := ih q
    simp only [pathLengthAux]
    omega

/-- Modelled from the spec: data.Path.IsAlmostFinished(d) holds when the
path's last point is within d of its first point ("check if slicePolygon is
almost finished"; the data package is not part of src/). -/
def isAlmostFinished (p : MPath) (snap : Int) : Bool :=
  match p with
  | [] => false
  | q :: rest => shorterThan ((rest.getLastD q).sub q) snap

/-- The length loop of makePolygons: accumulates segment sizes and, when the
polygon is closed, breaks out as soon as the accumulated length exceeds the
snap distance. -/
def lengthLoopGo (closed : Bool) (snap : Int) : MicroPoint → Int → List MicroPoint → Int
  | _, acc, [] => acc
  | prev, acc, q :: qs =>
    let acc2 := acc + sizeInt (q.sub prev)
    if closed = true ∧ snap < acc2 then acc2 else lengthLoopGo closed snap q acc2 qs

/-- Length measurement of makePolygons (the loop over `poly` skipping n = 0). -/
def lengthGo (closed : Bool) (snap : Int) : MPath → Int
  | [] => 0
  | p :: rest => lengthLoopGo closed snap p 0 rest

/-- layer.removeLastPoint: `l.polygons[i] = l.polygons[i][:len(l.polygons[i])]`
re-slices the path to its full length. -/
def removeLastPoint (polys : List MPath) (i : Nat) : List MPath :=
  polys.set i ((polys.getD i []).take (polys.getD i []).length)

/-- The final pass of layer.makePolygons (snapDistance = 1000): per polygon,
finish it when it is almost closed (removeLastPoint + mark closed), measure
its length with the early-exit loop, and keep it only when it is non-nil,
longer than the snap distance, and closed. -/
def makePolygonsFinal (entries : List (Option MPath × Bool)) : List MPath :=
  entries.filterMap (fun e =>
    match e.1 with
    | none => none
    | some poly =>
      let fin := isAlmostFinished poly 1000
      let poly2 := if fin then poly.take poly.length else poly
      let closed2 := e.2 || fin
      let len := lengthGo closed2 1000 poly2
      if closed2 = true ∧ 1000 < len then some poly2 else none)

/-- The final pass as the sentence of claim C4 words it: keep a path exactly
when it is marked closed and its total length is at least 1000 micrometers
(written for refinement comparison with `makePolygonsFinal`). -/
def makePolygonsFinalClaimed (entries : List (Option MPath × Bool)) : List MPath :=
  entries.filterMap (fun e =>
    match e.1 with
    | none => none
    | some poly =>
      if (e.2 || isAlmostFinished poly 1000) = true ∧ 1000 ≤ pathLength poly
      then some poly else none)

theorem lengthLoopGo_gt_iff (closed : Bool) (snap : Int) (rest : List MicroPoint) :
    ∀ prev acc, snap < lengthLoopGo closed snap prev acc rest
      ↔ snap < acc + pathLengthAux prev rest := by
  induction rest with
  | nil => intro prev acc; simp [lengthLoopGo, pathLengthAux]
  | cons q qs ih =>
    intro prev acc
    simp only [lengthLoopGo, pathLengthAux]
    by_cases h : closed = true ∧ snap < acc + sizeInt (q.sub prev)
    · rw [if_pos h]
      have := pathLengthAux_nonneg qs q
      constructor
      · intro _; omega
      · intro _; exact h.2
    · rw [if_neg h]
      rw [ih q (acc + sizeInt (q.sub prev))]
      omega

theorem lengthGo_gt_iff (closed : Bool) (snap : Int) (poly : MPath) :
    snap < lengthGo closed snap poly ↔ snap < pathLength poly := by
  cases poly with
  | nil => simp [lengthGo, pathLength]
  | cons p rest =>
    simp only [lengthGo, pathLength]
    rw [lengthLoopGo_gt_iff]
    simp

/-- The early-exit length measurement agrees with the total path length as far
as the keep condition is concerned, so the final pass keeps a polygon exactly
when it is (now) closed and its total length strictly exceeds 1000. -/
theorem makePolygonsFinal_total_eq (entries : List (Option MPath × Bool)) :
    makePolygonsFinal entries = entries.filterMap (fun e =>
      match e.1 with
      | none => none
      | some poly =>
        if (e.2 || isAlmostFinished poly 1000) = true ∧ 1000 < pathLength poly
        then some poly else none) := by
  induction entries with
  | nil => rfl
  | cons e es ih =>
    simp only [makePolygonsFinal, List.filterMap_cons] at *
    rw [ih]
    congr 1
    cases he : e.1 with
    | none => rfl
    | some poly =>
      simp only [List.take_length, if_pos, ite_self]
      by_cases hc : (e.2 || isAlmostFinished poly 1000) = true
      · simp only [hc, true_and, lengthGo_gt_iff]
      · simp [hc]

/-- Claim C4 (amended): after stitching and repair, the final polygon list
keeps a path exactly when it is marked closed (possibly freshly closed by the
almost-finished check at snap distance 1000) and its total length is strictly
greater than 1000 micrometers; paths of length exactly 1000 are dropped, and
kept paths are passed through unchanged. -/
theorem claim_C4_amended (entries : List (Option MPath × Bool)) :
    makePolygonsFinal entries = entries.filterMap (fun e =>
      match e.1 with
      | none => none
      | some poly =>
        if (e.2 || isAlmostFinished poly 1000) = true ∧ 1000 < pathLength poly
        then some poly else none) :=
  makePolygonsFinal_total_eq entries

/-- A closed polygon of total length exactly 1000 micrometers. -/
def lengthExactly1000Poly : MPath := [⟨0, 0⟩, ⟨500, 0⟩, ⟨0, 0⟩]

/-- Claim C4 counterexample: a closed polygon of total length exactly 1000
micrometers.  The claim keeps every closed path of length at least 1000
(`makePolygonsFinalClaimed` keeps it), but the code's condition is
`length > snapDistance`, strictly, so the path is dropped. -/
theorem claim_C4_counterexample :
    makePolygonsFinal [(some lengthExactly1000Poly, true)] = []
    ∧ makePolygonsFinalClaimed [(some lengthExactly1000Poly, true)] = [lengthExactly1000Poly]
    ∧ ([] : List MPath) ≠ [lengthExactly1000Poly] := by
  refine ⟨by decide, by decide, by decide⟩

/-- Claim C8: layer.removeLastPoint re-slices the polygon to its full length
and therefore leaves the polygon list unchanged for every input; consequently
every polygon that survives the final pass of makePolygons is passed through
verbatim (in particular any appended duplicate end point is retained). -/
theorem claim_C8_removeLastPoint_noop :
    (∀ (polys : List MPath) (i : Nat), removeLastPoint polys i = polys)
    ∧ ∀ (entries : List (Option MPath × Bool)),
        List.Sublist (makePolygonsFinal entries) (entries.filterMap (fun e => e.1)) := by
  constructor
  · intro polys i
    rw [removeLastPoint, List.take_length]
    induction polys generalizing i with
    | nil => rfl
    | cons p ps ih =>
      cases i with
      | zero => rfl
      | succ n =>
        show p :: ps.set n (ps.getD n []) = p :: ps
        rw [ih n]
  · intro entries
    rw [makePolygonsFinal_total_eq]
    induction entries with
    | nil => exact List.Sublist.refl _
    | cons e es ih =>
      simp only [List.filterMap_cons]
      cases he : e.1 with
      | none => exact ih
      | some poly =>
        by_cases hP : (e.2 || isAlmostFinished poly 1000) = true ∧ 1000 < pathLength poly
        · simp only [if_pos hP]
          exact List.Sublist.cons₂ poly ih
        · simp only [if_neg hP]
          exact List.Sublist.cons poly ih

/-!
## clipperClipper.Inset (clip/clipper.go, lines 202-219)

Each inset round adds the part's outline and holes to a ClipperOffset with
square joins and miter limit 2, and executes it at

    float64(-int(offset)*insetNr) - float64(offset/2)

Both summands are integers (Go's `/` truncates toward zero), so the executed
delta is exactly `-offset*insetNr - tdiv offset 2`.  By the clipper library's
convention a negative delta shrinks a closed polygon and a positive delta
grows it.
-/

/-- A layer part: one outline and a list of holes (data.LayerPart). -/
structure LayerPartD where
  outline : MPath
  holes : List MPath
  deriving DecidableEq, Repr

/-- One offset-execution round of Inset: the paths handed to the
ClipperOffset (outline first, then holes; square joins, closed polygons),
its miter limit, and the signed delta passed to Execute2.  A negative delta
shrinks the part, a positive delta grows it (clipper convention). -/
structure InsetRound where
  subject : List MPath
  miterLimit : Int
  delta : Int
  deriving DecidableEq, Repr

/-- clipperClipper.Inset, recorded symbolically: the sequence of offset
executions it performs for insetNr = 0 .. insetCount-1. -/
def Inset (part : LayerPartD) (offset : Int) (insetCount : Nat) : List InsetRound :=
  (List.range insetCount).map (fun (insetNr : Nat) =>
    { subject := part.outline :: part.holes
      miterLimit := 2
      delta := -offset * (insetNr : Int) - Int.tdiv offset 2 })

/-- The per-inset signed offset as the sentence of claim C2 words it: inset 0
at `offset/2` inside the contour (delta `-(offset/2)`), inset i >= 1 at signed
offset `offset*i` inside (delta `-(offset*i)`) (written for refinement
comparison with `Inset`). -/
def insetDeltaClaimed (offset : Int) (n : Nat) : Int :=
  if n = 0 then -(Int.tdiv offset 2) else -(offset * (n : Int))

/-- Claim C2 (amended): inset number 0 is executed at delta `-(o/2)` (one half
offset inside the contour), and every inset i >= 1 at delta `-(o*i) - o/2`
(a full step per inset plus the half-offset shift); for offsets o >= 2 every
executed delta is negative, i.e. a positive offset shrinks the part (and a
negative offset grows it). -/
theorem claim_C2_amended (part : LayerPartD) (o : Int) (k n : Nat)
    (hn : n < (Inset part o k).length) :
    ((Inset part o k).getD n ⟨[], 2, 0⟩).delta = -o * (n : Int) - Int.tdiv o 2
    ∧ (2 ≤ o → ((Inset part o k).getD n ⟨[], 2, 0⟩).delta < 0) := by
  have hlen : (Inset part o k).length = k := by
    rw [Inset, List.length_map, List.length_range]
  have hnk : n < k := by rw [hlen] at hn; exact hn
  have hval : (Inset part o k).getD n ⟨[], 2, 0⟩ =
      { subject := part.outline :: part.holes
        miterLimit := 2
        delta := -o * (n : Int) - Int.tdiv o 2 } := by
    rw [List.getD_eq_getElem?_getD]
    rw [Inset, List.getElem?_map]
    rw [List.getElem?_range hnk]
    rfl
  refine ⟨by rw [hval], ?_⟩
  intro ho
  rw [hval]
  have htd : 1 ≤ Int.tdiv o 2 := by
    rw [Int.tdiv_eq_ediv (by omega) (by omega)]
    omega
  have hmul : 0 ≤ o * (n : Int) := by positivity
  have hneg : -o * (n : Int) = -(o * (n : Int)) := by ring
  show -o * (n : Int) - Int.tdiv o 2 < 0
  omega

/-- Claim C2 witness for the amended statement, at part = unit square,
offset 2, insetCount 2, inset number 1: the executed delta is -2*1 - 1 = -3,
which is negative. -/
theorem claim_C2_witness :
    ((Inset ⟨[⟨0, 0⟩, ⟨1000, 0⟩, ⟨1000, 1000⟩, ⟨0, 1000⟩], []⟩ 2 2).getD 1 ⟨[], 2, 0⟩).delta
      = -2 * (1 : Int) - Int.tdiv 2 2
    ∧ (2 ≤ (2 : Int) →
        ((Inset ⟨[⟨0, 0⟩, ⟨1000, 0⟩, ⟨1000, 1000⟩, ⟨0, 1000⟩], []⟩ 2 2).getD 1 ⟨[], 2, 0⟩).delta < 0) :=
  claim_C2_amended ⟨[⟨0, 0⟩, ⟨1000, 0⟩, ⟨1000, 1000⟩, ⟨0, 1000⟩], []⟩ 2 2 1 (by decide)

/-- Claim C2 counterexample: at offset 2 with insetCount 2 the executed deltas
are [-1, -3], but the claim's per-inset offsets are [-1, -2]: inset 1 is not
at signed offset o*1 = 2 inside, it carries the extra half-offset shift.
Moreover at the negative offset -2 the single executed delta is +1, which
grows the part (clipper convention): a negative offset does not shrink. -/
theorem claim_C2_counterexample :
    (Inset ⟨[⟨0, 0⟩, ⟨10, 0⟩, ⟨0, 10⟩], []⟩ 2 2).map (fun r => r.delta) = [-1, -3]
    ∧ (List.range 2).map (insetDeltaClaimed 2) = [-1, -2]
    ∧ ¬((Inset ⟨[⟨0, 0⟩, ⟨10, 0⟩, ⟨0, 10⟩], []⟩ 2 2).map (fun r => r.delta)
        = (List.range 2).map (insetDeltaClaimed 2))
    ∧ ((Inset ⟨[⟨0, 0⟩, ⟨10, 0⟩, ⟨0, 10⟩], []⟩ (-2) 1).getD 0 ⟨[], 2, 0⟩).delta = 1 := by
  refine ⟨by decide, by decide, by decide, by decide⟩

/-!
## clipperClipper.Fill / getLinearFill (clip/clipper.go, lines 221-298)

Fill computes the bounding box of the part's outline, generates vertical
scanlines spaced lineWidth apart with alternating direction (boustrophedon),
and clips them by intersection against the outline and the holes (even-odd
fill).  The overlap inset of the outline,

    overlap := float32(lineWidth) * (100.0 - float32(overlapPercentage)) / 100.0

is applied as an offset Execute(-overlap) -- but only inside
`if overlapPercentage != 0`; for overlapPercentage == 0 the raw outline is
used as the clip region.  The offset amount is modelled exactly as a rational.
-/

/-- Modelled from the spec: data.Path.Size returns the axis-aligned bounding
box (min, max) of a path (the data package is not part of src/). -/
def pathMinMax : MPath → MicroPoint × MicroPoint
  | [] => (⟨0, 0⟩, ⟨0, 0⟩)
  | p :: rest =>
    rest.foldl
      (fun mm q => (⟨min mm.1.x q.x, min mm.1.y q.y⟩, ⟨max mm.2.x q.x, max mm.2.y q.y⟩))
      (p, p)

/-- The scanline generation loop of getLinearFill:
`for x := min.X; x <= max.X; x += lineWidth` with the line direction switched
on even/odd line numbers.  `fuel` only bounds the iteration count so the
definition is total; `fuel = (maxX + 1 - minX).toNat` suffices whenever
`lineWidth >= 1` (for lineWidth <= 0 the Go loop would not terminate). -/
def scanLoop (minY maxY maxX lw : Int) : Nat → Int → Nat → List MPath
  | 0, _, _ => []
  | fuel + 1, x, numLine =>
    if x ≤ maxX then
      (if numLine % 2 = 1 then [⟨x, maxY⟩, ⟨x, minY⟩] else [⟨x, minY⟩, ⟨x, maxY⟩])
        :: scanLoop minY maxY maxX lw fuel (x + lw) (numLine + 1)
    else []

/-- The vertical boustrophedon scanlines of getLinearFill over the bounding
box [minS, maxS], spaced lineWidth apart. -/
def scanLines (minS maxS : MicroPoint) (lineWidth : Int) : List MPath :=
  if 0 < lineWidth then
    scanLoop minS.y maxS.y maxS.x lineWidth (maxS.x + 1 - minS.x).toNat minS.x 0
  else []

/-- The clip region handed to the intersection in getLinearFill: either the
raw outline paths, or the outline paths offset by the given signed rational
delta (a negative delta insets the region inward, clipper convention). -/
inductive ClipRegion where
  | raw (paths : List MPath)
  | offsetBy (paths : List MPath) (delta : ℚ)
  deriving DecidableEq, Repr

/-- The exact value of getLinearFill's `overlap` variable as a rational. -/
def overlapAmount (lineWidth overlapPercentage : Int) : ℚ :=
  (lineWidth : ℚ) * ((100 : ℚ) - (overlapPercentage : ℚ)) / 100

/-- The full description of one getLinearFill call: the scanline subject
paths, the clip region the lines are intersected with (even-odd fill), and
the hole paths added to the clip side (which excludes the holes from the
intersection result). -/
structure FillCall where
  lines : List MPath
  clip : ClipRegion
  clipHoles : List MPath
  deriving DecidableEq, Repr

/-- getLinearFill, recorded symbolically: generates the scanlines and clips
them against the (possibly inset) outline; the overlap inset is only applied
when overlapPercentage is non-zero. -/
def getLinearFill (outline : MPath) (holes : List MPath) (minS maxS : MicroPoint)
    (lineWidth overlapPercentage : Int) : FillCall :=
  { lines := scanLines minS maxS lineWidth
    clip :=
      if overlapPercentage ≠ 0 then
        ClipRegion.offsetBy [outline] (-(overlapAmount lineWidth overlapPercentage))
      else ClipRegion.raw [outline]
    clipHoles := holes }

/-- clipperClipper.Fill: bounding box of the outline, then getLinearFill. -/
def Fill (part : LayerPartD) (lineWidth overlapPercentage : Int) : FillCall :=
  let mm := pathMinMax part.outline
  getLinearFill part.outline part.holes mm.1 mm.2 lineWidth overlapPercentage

/-- Fill as the sentence of claim C1 words it: for every overlapPercent
(including 0) the scanlines are clipped against the outline inset inward by
`lineWidth * (100 - overlapPercent) / 100` (written for refinement comparison
with `Fill`). -/
def FillClaimed (part : LayerPartD) (lineWidth overlapPercentage : Int) : FillCall :=
  let mm := pathMinMax part.outline
  { lines := scanLines mm.1 mm.2 lineWidth
    clip := ClipRegion.offsetBy [part.outline] (-(overlapAmount lineWidth overlapPercentage))
    clipHoles := part.holes }

/-- Claim C1 (amended): for every non-zero overlapPercent, Fill clips the
boustrophedon scanlines of the outline's bounding box against the outline
inset inward by `lineWidth * (100 - overlapPercent) / 100`, with the holes on
the clip side (excluded from the result); for overlapPercent = 0 the inset
step is skipped and the raw outline is used as the clip region. -/
theorem claim_C1_amended (part : LayerPartD) (lineWidth overlapPercentage : Int) :
    (overlapPercentage ≠ 0 →
      Fill part lineWidth overlapPercentage =
        { lines := scanLines (pathMinMax part.outline).1 (pathMinMax part.outline).2 lineWidth
          clip := ClipRegion.offsetBy [part.outline]
            (-(overlapAmount lineWidth overlapPercentage))
          clipHoles := part.holes })
    ∧ (overlapPercentage = 0 →
      Fill part lineWidth overlapPercentage =
        { lines := scanLines (pathMinMax part.outline).1 (pathMinMax part.outline).2 lineWidth
          clip := ClipRegion.raw [part.outline]
          clipHoles := part.holes }) := by
  constructor
  · intro h
    simp [Fill, getLinearFill, h]
  · intro h
    simp [Fill, getLinearFill, h]

/-- A concrete 1 mm square part used as witness input. -/
def squarePart : LayerPartD := ⟨[⟨0, 0⟩, ⟨1000, 0⟩, ⟨1000, 1000⟩, ⟨0, 1000⟩], []⟩

/-- Claim C1 witness for the amended statement at the 1 mm square, line width
100, overlap 50 percent: the clip region is the outline inset by 50. -/
theorem claim_C1_witness :
    Fill squarePart 100 50 =
      { lines := scanLines (pathMinMax squarePart.outline).1 (pathMinMax squarePart.outline).2 100
        clip := ClipRegion.offsetBy [squarePart.outline] (-(overlapAmount 100 50))
        clipHoles := squarePart.holes } :=
  (claim_C1_amended squarePart 100 50).1 (by decide)

/-- Claim C1 counterexample: at overlapPercent = 0 the claim demands the
outline inset by `lineWidth * 100 / 100 = lineWidth` (here 100), but the code
skips the offset call entirely and clips against the raw outline. -/
theorem claim_C1_counterexample :
    (Fill squarePart 100 0).clip = ClipRegion.raw [squarePart.outline]
    ∧ (FillClaimed squarePart 100 0).clip
        = ClipRegion.offsetBy [squarePart.outline] (-100)
    ∧ (Fill squarePart 100 0).clip ≠ (FillClaimed squarePart 100 0).clip := by
  refine ⟨rfl, ?_, by decide⟩
  show ClipRegion.offsetBy [squarePart.outline] (-(overlapAmount 100 0))
      = ClipRegion.offsetBy [squarePart.outline] (-100)
  norm_num [overlapAmount]

/-!
## renderer.PreLayer.Render (gcode/renderer, unnamed source file)

On layer 0 the renderer emits the start sequence; the builder's Set* calls
(SetExtrusion, speeds, retraction, the initial-layer speed override) only
update builder state and emit no g-code lines, so the emitted output of a
Render call is the sequence of AddComment/AddCommand lines.  The command
mnemonic is kept structured so that "contains a home command (G28)" is a
decidable property of the output.
-/

/-- The g-code words PreLayer.Render can emit. -/
inductive GWord where
  | G1 | G28 | G92 | M104 | M106 | M107 | M109 | M140 | M190
  deriving DecidableEq, Repr

/-- One emitted g-code line: a comment or a command (word plus the rest of
the line exactly as formatted by the Go source). -/
inductive GLine where
  | comment (text : String)
  | cmd (word : GWord) (rest : String)
  deriving DecidableEq, Repr

/-- The options PreLayer.Render reads. -/
structure PreLayerOptions where
  initialHotEndTemperature : Nat
  initialBedTemperature : Nat
  hotEndTemperature : Nat
  bedTemperature : Nat
  initialTemperatureLayerCount : Nat
  fanSpeedLUT : List (Nat × Nat)
  deriving DecidableEq, Repr

/-- Lookup in the FanSpeed.LayerToSpeedLUT map. -/
def lutLookup : List (Nat × Nat) → Nat → Option Nat
  | [], _ => none
  | (k, v) :: rest, n => if k = n then some v else lutLookup rest n

/-- The lines emitted by PreLayer.Render for a layer.  Layer 0 gets the
start sequence; every layer starts with the LAYER comment; a fan-speed LUT
entry for the layer emits M106/M107; reaching InitialTemperatureLayerCount
emits the non-waiting normal temperatures. -/
def preLayerRender (layerNr : Nat) (o : PreLayerOptions) : List GLine :=
  [GLine.comment ("LAYER:" ++ toString layerNr)]
  ++ (if layerNr = 0 then
      [GLine.comment "Generated with GoSlice",
       GLine.comment "______________________",
       GLine.cmd GWord.M107 "; disable fan",
       GLine.comment "SET_INITIAL_TEMP",
       GLine.cmd GWord.M104 ("S" ++ toString o.initialHotEndTemperature ++ " ; start heating hot end"),
       GLine.cmd GWord.M190 ("S" ++ toString o.initialBedTemperature ++ " ; heat and wait for bed"),
       GLine.cmd GWord.M109 ("S" ++ toString o.initialHotEndTemperature ++ " ; wait for hot end temperature"),
       GLine.comment "START_GCODE",
       GLine.cmd GWord.G1 "Z5 F5000 ; lift nozzle",
       GLine.cmd GWord.G92 "E0 ; reset extrusion distance"]
     else [])
  ++ (match lutLookup o.fanSpeedLUT layerNr with
      | none => []
      | some fanSpeed =>
        if fanSpeed = 0 then [GLine.cmd GWord.M107 "; disable fan"]
        else [GLine.cmd GWord.M106 ("S" ++ toString fanSpeed ++ "; change fan speed")])
  ++ (if layerNr = o.initialTemperatureLayerCount then
      [GLine.comment "SET_TEMP",
       GLine.cmd GWord.M140 ("S" ++ toString o.bedTemperature),
       GLine.cmd GWord.M104 ("S" ++ toString o.hotEndTemperature)]
     else [])

/-- Whether a line is a homing command. -/
def isHomeLine : GLine → Bool
  | GLine.cmd GWord.G28 _ => true
  | _ => false

/-- Whether an emitted sequence homes the printer (contains a G28 command). -/
def containsHome (out : List GLine) : Bool :=
  out.any isHomeLine

/-- Claim C6 (amended): for every option set, the layer-0 start sequence
starts heating the hot end (M104), heats and waits for the bed (M190), waits
for the hot end (M109), lifts the nozzle to Z=5 (G1 Z5 F5000) and resets the
extrusion distance E to zero (G92 E0) -- but it never homes the printer: no
G28 command is emitted on layer 0. -/
theorem claim_C6_amended (o : PreLayerOptions) :
    GLine.cmd GWord.M104 ("S" ++ toString o.initialHotEndTemperature ++ " ; start heating hot end")
        ∈ preLayerRender 0 o
    ∧ GLine.cmd GWord.M190 ("S" ++ toString o.initialBedTemperature ++ " ; heat and wait for bed")
        ∈ preLayerRender 0 o
    ∧ GLine.cmd GWord.M109 ("S" ++ toString o.initialHotEndTemperature ++ " ; wait for hot end temperature")
        ∈ preLayerRender 0 o
    ∧ GLine.cmd GWord.G1 "Z5 F5000 ; lift nozzle" ∈ preLayerRender 0 o
    ∧ GLine.cmd GWord.G92 "E0 ; reset extrusion distance" ∈ preLayerRender 0 o
    ∧ containsHome (preLayerRender 0 o) = false := by
  refine ⟨?_, ?_, ?_, ?_, ?_, ?_⟩
  · simp [preLayerRender]
  · simp [preLayerRender]
  · simp [preLayerRender]
  · simp [preLayerRender]
  · simp [preLayerRender]
  · simp only [containsHome, preLayerRender, List.any_append, if_pos rfl]
    cases hl : lutLookup o.fanSpeedLUT 0 with
    | none =>
      by_cases h0 : o.initialTemperatureLayerCount = 0
      · simp [isHomeLine, h0]
      · simp [isHomeLine, Ne.symm h0]
    | some fanSpeed =>
      by_cases hf : fanSpeed = 0
      · by_cases h0 : o.initialTemperatureLayerCount = 0
        · simp [isHomeLine, hf, h0]
        · simp [isHomeLine, hf, Ne.symm h0]
      · by_cases h0 : o.initialTemperatureLayerCount = 0
        · simp [isHomeLine, hf, h0]
        · simp [isHomeLine, hf, Ne.symm h0]

/-- A concrete option set for the counterexample. -/
def preLayerOpts0 : PreLayerOptions :=
  { initialHotEndTemperature := 205
    initialBedTemperature := 60
    hotEndTemperature := 210
    bedTemperature := 55
    initialTemperatureLayerCount := 3
    fanSpeedLUT := [(1, 255)] }

/-- Claim C6 counterexample: at a concrete option set the full layer-0 output
is the heat/wait, lift and reset sequence -- and it contains no G28 command,
so the claim's "homes the printer" is false: containsHome is false while the
claim requires it to be true. -/
theorem claim_C6_counterexample :
    preLayerRender 0 preLayerOpts0 =
      [GLine.comment "LAYER:0",
       GLine.comment "Generated with GoSlice",
       GLine.comment "______________________",
       GLine.cmd GWord.M107 "; disable fan",
       GLine.comment "SET_INITIAL_TEMP",
       GLine.cmd GWord.M104 "S205 ; start heating hot end",
       GLine.cmd GWord.M190 "S60 ; heat and wait for bed",
       GLine.cmd GWord.M109 "S205 ; wait for hot end temperature",
       GLine.comment "START_GCODE",
       GLine.cmd GWord.G1 "Z5 F5000 ; lift nozzle",
       GLine.cmd GWord.G92 "E0 ; reset extrusion distance"]
    ∧ containsHome (preLayerRender 0 preLayerOpts0) = false
    ∧ ¬(containsHome (preLayerRender 0 preLayerOpts0) = true) := by
  refine ⟨by decide, by decide, by decide⟩

/-!
## Partitioned layers, attributes and the support modifiers

A PartitionedLayer carries a list of parts and a string-keyed attribute map;
attribute values are lists of LayerParts or lists of Paths.  The modifiers
are generic in the part representation `P` and in the clip engine, whose
boolean operations come from the external clipper library: `union` and
`difference` return `none` where the Go code receives `ok == false`, and
`insetLayer` stands for `InsetLayer(...).ToOneDimension()` of the modifier
package's four-argument inset (offset, insetCount, firstOffset).
-/

/-- An attribute value: a list of layer parts or a list of paths. -/
inductive Attr (P : Type) where
  | parts (l : List P)
  | paths (l : List MPath)
  deriving DecidableEq, Repr

/-- A partitioned layer: parts plus a string-keyed attribute map. -/
structure PartLayer (P : Type) where
  parts : List P
  attributes : List (String × Attr P)
  deriving DecidableEq, Repr

/-- Attribute-map access (`layer.Attributes()[name]`). -/
def lookupAttr {P : Type} : List (String × Attr P) → String → Option (Attr P)
  | [], _ => none
  | (k, v) :: rest, name => if k = name then some v else lookupAttr rest name

/-- Attribute-map update (`newLayer.attributes[name] = value`). -/
def setAttr {P : Type} : List (String × Attr P) → String → Attr P → List (String × Attr P)
  | [], name, v => [(name, v)]
  | (k, w) :: rest, name, v =>
    if k = name then (name, v) :: rest else (k, w) :: setAttr rest name v

theorem lookupAttr_setAttr_same {P : Type} (attrs : List (String × Attr P))
    (name : String) (v : Attr P) : lookupAttr (setAttr attrs name v) name = some v := by
  induction attrs with
  | nil => simp [setAttr, lookupAttr]
  | cons kv rest ih =>
    by_cases hk : kv.1 = name
    · simp [setAttr, lookupAttr, hk]
    · simp [setAttr, lookupAttr, hk, ih]

/-- Indexing into the layer list (`layers[i]`; all claim-relevant accesses
are in bounds, so the default is never reached there). -/
def getLayer {P : Type} (layers : List (PartLayer P)) (i : Nat) : PartLayer P :=
  layers.getD i ⟨[], []⟩

/-- modifier.FullSupport: reads the attribute "fullSupport".  Missing
attribute: (nil, nil); wrong type: a typed error; otherwise the parts. -/
def FullSupport {P : Type} (layer : PartLayer P) : Except String (Option (List P)) :=
  match lookupAttr layer.attributes "fullSupport" with
  | some attr =>
    match attr with
    | Attr.parts l => Except.ok (some l)
    | _ => Except.error "the attribute fullSupport has the wrong datatype"
  | none => Except.ok none

/-- Claim C7: FullSupport returns the stored LayerPart list without error
when the attribute exists with the correct type, returns an empty result
(none, modelling Go's (nil, nil)) when the attribute is missing, and returns
the typed error exactly when the attribute exists with a mismatched type. -/
theorem claim_C7_fullSupport {P : Type} (layer : PartLayer P) :
    (lookupAttr layer.attributes "fullSupport" = none →
      FullSupport layer = Except.ok none)
    ∧ (∀ l, lookupAttr layer.attributes "fullSupport" = some (Attr.parts l) →
      FullSupport layer = Except.ok (some l))
    ∧ (∀ a, lookupAttr layer.attributes "fullSupport" = some a →
      (∀ l, a ≠ Attr.parts l) →
      FullSupport layer = Except.error "the attribute fullSupport has the wrong datatype") := by
  refine ⟨?_, ?_, ?_⟩
  · intro h
    rw [FullSupport, h]
  · intro l h
    rw [FullSupport, h]
  · intro a h hne
    rw [FullSupport, h]
    cases a with
    | parts l => exact absurd rfl (hne l)
    | paths l => rfl

/-- Claim C7 witness: the three cases at concrete attribute maps (missing
attribute, correctly typed attribute, wrongly typed attribute). -/
theorem claim_C7_witness :
    FullSupport (⟨[], []⟩ : PartLayer Nat) = Except.ok none
    ∧ FullSupport (⟨[], [("fullSupport", Attr.parts [7])]⟩ : PartLayer Nat)
        = Except.ok (some [7])
    ∧ FullSupport (⟨[], [("fullSupport", Attr.paths [])]⟩ : PartLayer Nat)
        = Except.error "the attribute fullSupport has the wrong datatype" :=
  ⟨(claim_C7_fullSupport (⟨[], []⟩ : PartLayer Nat)).1 rfl,
   (claim_C7_fullSupport (⟨[], [("fullSupport", Attr.parts [7])]⟩ : PartLayer Nat)).2.1 [7]
     (by decide),
   (claim_C7_fullSupport (⟨[], [("fullSupport", Attr.paths [])]⟩ : PartLayer Nat)).2.2
     (Attr.paths []) (by decide) (fun l h => by cases h)⟩

/-- The clip operations the support modifiers call.  `union` and `difference`
model clip.Clipper.Union/Difference (`none` = the engine's ok == false);
`insetLayer parts offset insetCount firstOffset` models
`clip.Clipper.InsetLayer(parts, offset, insetCount, firstOffset).ToOneDimension()`. -/
structure ClipEngine (P : Type) where
  union : List P → List P → Option (List P)
  difference : List P → List P → Option (List P)
  insetLayer : List P → Int → Nat → Int → List P

/-- Modelled from the spec: the per-inset signed offsets applied by the
four-argument InsetLayer of the modifier package (absent from src/, whose
clipper.go has only the three-argument form): inset 0 applies `firstOffset`,
inset i in 1..count-1 applies `offset*i`; a negative applied offset shrinks
and a positive one grows (spec section 4.B). -/
def appliedInsetOffsets (offset firstOffset : Int) (insetCount : Nat) : List Int :=
  (List.range insetCount).map (fun (n : Nat) =>
    if n = 0 then firstOffset else offset * (n : Int))

/-- Modelled from the spec: modifier.PartsAttribute (absent from src/) reads
a named attribute as a list of LayerParts; a missing attribute is silently
treated as empty, only a wrong type errors. -/
def PartsAttribute {P : Type} (layer : PartLayer P) (attrName : String) :
    Except String (List P) :=
  match lookupAttr layer.attributes attrName with
  | some (Attr.parts l) => Except.ok l
  | some _ => Except.error ("the attribute " ++ attrName ++ " has the wrong datatype")
  | none => Except.ok []

/-- Modelled from the spec: modifier.BrimOuterDimension (absent from src/)
reads the brim outer-dimension area stored by the brim modifier; a missing
attribute means no brim (nil). -/
def BrimOuterDimension {P : Type} (layer : PartLayer P) : Except String (List P) :=
  PartsAttribute layer "brimOuterDimension"

/-!
## supportDetectorModifier.Modify

    for layerNr := range layers {
        if !enabled { return nil }
        if layerNr == len(layers)-1 || layerNr < topGapLayers { continue }
        offsetLayer := cl.InsetLayer(layers[layerNr].LayerParts(), negD, 1, (-negD)/2).ToOneDimension()
        support, ok := cl.Difference(layers[layerNr+1].LayerParts(), offsetLayer)
        if !ok { return error }
        support = cl.InsetLayer(support, -spacing*3, 1, spacing*3/2).ToOneDimension()
        newLayer := newExtendedLayer(layers[layerNr-topGapLayers])
        if len(support) > 0 { newLayer.attributes["support"] = support }
        layers[layerNr-topGapLayers] = newLayer
    }

where negD = Micrometer(-math.Round(distance)); the float distance
layerThickness*tan(thresholdAngle) enters only through the integer negD,
which is therefore a parameter here.  newExtendedLayer copies the layer's
parts and attributes (modelled from the spec's attribute-map description).
-/

/-- One non-skipped iteration of supportDetectorModifier.Modify. -/
def detectorIteration {P : Type} (eng : ClipEngine P) (topGap : Nat) (spacing negD : Int)
    (layerNr : Nat) (layers : List (PartLayer P)) : Except String (List (PartLayer P)) :=
  let offsetLayer := eng.insetLayer (getLayer layers layerNr).parts negD 1 (Int.tdiv (-negD) 2)
  match eng.difference (getLayer layers (layerNr + 1)).parts offsetLayer with
  | none => Except.error "could not calculate the support parts"
  | some support0 =>
    let support := eng.insetLayer support0 (-(spacing * 3)) 1 (Int.tdiv (spacing * 3) 2)
    let target := layerNr - topGap
    let old := getLayer layers target
    let newAttrs :=
      if support.isEmpty then old.attributes
      else setAttr old.attributes "support" (Attr.parts support)
    Except.ok (layers.set target { old with attributes := newAttrs })

/-- The loop of supportDetectorModifier.Modify; `n` counts the remaining
iterations (`n = layers.length - layerNr`). -/
def detectorGo {P : Type} (eng : ClipEngine P) (enabled : Bool) (topGap : Nat)
    (spacing negD : Int) : Nat → Nat → List (PartLayer P) → Except String (List (PartLayer P))
  | 0, _, layers => Except.ok layers
  | n + 1, layerNr, layers =>
    if enabled = false then Except.ok layers
    else if layerNr = layers.length - 1 ∨ layerNr < topGap then
      detectorGo eng enabled topGap spacing negD n (layerNr + 1) layers
    else
      match detectorIteration eng topGap spacing negD layerNr layers with
      | Except.error e => Except.error e
      | Except.ok layers2 => detectorGo eng enabled topGap spacing negD n (layerNr + 1) layers2

/-- supportDetectorModifier.Modify. -/
def detectorModify {P : Type} (eng : ClipEngine P) (enabled : Bool) (topGap : Nat)
    (spacing negD : Int) (layers : List (PartLayer P)) : Except String (List (PartLayer P)) :=
  detectorGo eng enabled topGap spacing negD layers.length 0 layers

/-- A symbolic clip expression recording which operations were applied to
which inputs (the external clipper engine evaluated symbolically). -/
inductive SymExpr where
  | layer (i : Nat)
  | union (a b : List SymExpr)
  | difference (a b : List SymExpr)
  | insetLayer (src : List SymExpr) (offset : Int) (insetCount : Nat) (firstOffset : Int)

/-- The symbolic clip engine: every operation returns the recorded call. -/
def symEngine : ClipEngine SymExpr :=
  { union := fun a b => some [SymExpr.union a b]
    difference := fun a b => some [SymExpr.difference a b]
    insetLayer := fun src offset insetCount firstOffset =>
      [SymExpr.insetLayer src offset insetCount firstOffset] }

/-- Claim C5 (amended): every processed layer n stores, at layer
n - topGapLayers, the region layer[n+1] minus the offset of layer[n]
(InsetLayer at offset negD with firstOffset (-negD)/2), enlarged by the
single-inset call InsetLayer(-, -3*patternSpacing, 1, 3*patternSpacing/2) --
whose one applied offset is 3*patternSpacing/2, not 3*patternSpacing. -/
theorem claim_C5_amended (layers : List (PartLayer SymExpr)) (topGap : Nat)
    (spacing negD : Int) (layerNr : Nat) :
    detectorIteration symEngine topGap spacing negD layerNr layers =
      Except.ok (layers.set (layerNr - topGap)
        { getLayer layers (layerNr - topGap) with
          attributes := setAttr (getLayer layers (layerNr - topGap)).attributes "support"
            (Attr.parts [SymExpr.insetLayer
              [SymExpr.difference (getLayer layers (layerNr + 1)).parts
                [SymExpr.insetLayer (getLayer layers layerNr).parts negD 1
                  (Int.tdiv (-negD) 2)]]
              (-(spacing * 3)) 1 (Int.tdiv (spacing * 3) 2)]) })
    ∧ appliedInsetOffsets (-(spacing * 3)) (Int.tdiv (spacing * 3) 2) 1
        = [Int.tdiv (spacing * 3) 2] := by
  exact ⟨rfl, rfl⟩

/-- Two-layer symbolic input for the C5 counterexample. -/
def symLayers2 : List (PartLayer SymExpr) :=
  [⟨[SymExpr.layer 0], []⟩, ⟨[SymExpr.layer 1], []⟩]

/-- Claim C5 counterexample: patternSpacing = 100, topGapLayers = 0, negD = 0,
two layers.  Layer 0 is processed and stores under "support" the difference
region enlarged through InsetLayer(-, -300, 1, 150): with insetCount 1 the
only applied offset is the firstOffset 150 = 3*patternSpacing/2.  The claim
says the region is enlarged outward by 3*patternSpacing = 300, but the
applied offsets are [150], not [300]. -/
theorem claim_C5_counterexample :
    detectorModify symEngine true 0 100 0 symLayers2 =
      Except.ok
        [⟨[SymExpr.layer 0],
          [("support", Attr.parts [SymExpr.insetLayer
            [SymExpr.difference [SymExpr.layer 1]
              [SymExpr.insetLayer [SymExpr.layer 0] 0 1 0]]
            (-300) 1 150])]⟩,
         ⟨[SymExpr.layer 1], []⟩]
    ∧ appliedInsetOffsets (-300) 150 1 = [150]
    ∧ appliedInsetOffsets (-300) 150 1 ≠ [300] := by
  refine ⟨rfl, rfl, by decide⟩

/-!
## supportGeneratorModifier.Modify

Walks from layerNr = len(layers)-2 down; returns nil when support is disabled
or layerNr reaches 0; otherwise unions the carried-over support with the
written layer's own "support", subtracts the gap-enlarged layer below,
computes interface parts from "fullSupport" of interfaceLayers-1 above, and
stores "fullSupport"/"supportInterface" (when non-empty) and always
"support" (the remainder, or the empty list) into layer layerNr-1.
-/

/-- `currentSupport := lastSupport; if currentSupport == nil { read attr }`. -/
def generatorReadCurrent {P : Type} (layers : List (PartLayer P)) (layerNr : Nat)
    (lastSupport : Option (List P)) : Except String (List P) :=
  match lastSupport with
  | some s => Except.ok s
  | none => PartsAttribute (getLayer layers layerNr) "support"

/-- The `if actualSupport != nil` block of the generator: interface parts and
the remaining (body) support; both nil when actualSupport is nil.  The two
brim subtractions ignore the engine's ok flag, as the Go code does. -/
def genInterfaceAndRest {P : Type} (eng : ClipEngine P) (interfaceLayers : Nat)
    (layers : List (PartLayer P)) (layerNr : Nat) (actualSupport : List P) :
    Except String (List P × List P) :=
  if actualSupport.isEmpty then Except.ok ([], [])
  else
    let lnai0 := layerNr + interfaceLayers - 1
    let lnai := if layers.length ≤ lnai0 then layers.length - 1 else lnai0
    match PartsAttribute (getLayer layers lnai) "fullSupport" with
    | Except.error e => Except.error e
    | Except.ok supportAboveInterface =>
      match eng.difference actualSupport supportAboveInterface with
      | none => Except.error "error while calculating interface parts"
      | some interfaceParts0 =>
        match eng.difference actualSupport interfaceParts0 with
        | none =>
          Except.error "error while calculating the actual support without the interface parts"
        | some actualWithout0 =>
          match BrimOuterDimension (getLayer layers (layerNr - 1)) with
          | Except.error e => Except.error e
          | Except.ok brimArea =>
            if brimArea.isEmpty then Except.ok (interfaceParts0, actualWithout0)
            else Except.ok ((eng.difference interfaceParts0 brimArea).getD [],
                            (eng.difference actualWithout0 brimArea).getD [])

/-- One iteration of supportGeneratorModifier.Modify at layerNr >= 1:
returns the updated layer list and the new lastSupport carry. -/
def generatorStep {P : Type} (eng : ClipEngine P) (gap : Int) (interfaceLayers : Nat)
    (layers : List (PartLayer P)) (layerNr : Nat) (lastSupport : Option (List P)) :
    Except String (List (PartLayer P) × Option (List P)) :=
  match generatorReadCurrent layers layerNr lastSupport with
  | Except.error e => Except.error e
  | Except.ok currentSupport =>
    match PartsAttribute (getLayer layers (layerNr - 1)) "support" with
    | Except.error e => Except.error e
    | Except.ok belowSupport =>
      if currentSupport.isEmpty && belowSupport.isEmpty then
        Except.ok (layers, lastSupport)
      else
        match eng.union currentSupport belowSupport with
        | none => Except.error ("could not union the supports for layer "
            ++ toString layerNr ++ " to generate support")
        | some result =>
          let biggerLayer := eng.insetLayer (getLayer layers (layerNr - 1)).parts
            (-gap) 1 (Int.tdiv gap 2)
          match eng.difference result biggerLayer with
          | none => Except.error ("could not subtract the model from the supports for layer "
              ++ toString layerNr)
          | some actualSupport =>
            match genInterfaceAndRest eng interfaceLayers layers layerNr actualSupport with
            | Except.error e => Except.error e
            | Except.ok (interfaceParts, actualWithout) =>
              let old := getLayer layers (layerNr - 1)
              let a1 := if actualSupport.isEmpty then old.attributes
                else setAttr old.attributes "fullSupport" (Attr.parts actualSupport)
              let a2 := if interfaceParts.isEmpty then a1
                else setAttr a1 "supportInterface" (Attr.parts interfaceParts)
              let a3 := if actualWithout.isEmpty then setAttr a2 "support" (Attr.parts [])
                else setAttr a2 "support" (Attr.parts actualWithout)
              Except.ok (layers.set (layerNr - 1) { old with attributes := a3 },
                if actualSupport.isEmpty then none else some actualSupport)

/-- The loop of supportGeneratorModifier.Modify; `n` bounds the remaining
iterations. -/
def generatorGo {P : Type} (eng : ClipEngine P) (gap : Int) (interfaceLayers : Nat)
    (enabled : Bool) : Nat → Nat → List (PartLayer P) → Option (List P) →
    Except String (List (PartLayer P))
  | 0, _, layers, _ => Except.ok layers
  | n + 1, layerNr, layers, lastSupport =>
    if enabled = false ∨ layerNr = 0 then Except.ok layers
    else
      match generatorStep eng gap interfaceLayers layers layerNr lastSupport with
      | Except.error e => Except.error e
      | Except.ok (layers2, last2) =>
        generatorGo eng gap interfaceLayers enabled n (layerNr - 1) layers2 last2

/-- supportGeneratorModifier.Modify: starts at len(layers)-2 with an empty
carry (the loop body never runs when there are fewer than two layers). -/
def generatorModify {P : Type} (eng : ClipEngine P) (gap : Int) (interfaceLayers : Nat)
    (enabled : Bool) (layers : List (PartLayer P)) : Except String (List (PartLayer P)) :=
  if layers.length < 2 then Except.ok layers
  else generatorGo eng gap interfaceLayers enabled (layers.length - 1) (layers.length - 2)
    layers none

/-- Claim C9: when support is disabled, both the support detector and the
support generator return nil (no error) immediately and leave every layer --
in particular every attribute map -- unchanged. -/
theorem claim_C9_disabled {P : Type} (eng : ClipEngine P) (topGap : Nat)
    (spacing negD gap : Int) (interfaceLayers : Nat) (enabled : Bool)
    (layers : List (PartLayer P)) (hdis : enabled = false) :
    detectorModify eng enabled topGap spacing negD layers = Except.ok layers
    ∧ generatorModify eng gap interfaceLayers enabled layers = Except.ok layers := by
  constructor
  · rw [detectorModify]
    cases hn : layers.length with
    | zero => rfl
    | succ n =>
      rw [detectorGo]
      simp [hdis]
  · rw [generatorModify]
    by_cases hlen : layers.length < 2
    · rw [if_pos hlen]
    · rw [if_neg hlen]
      have h1 : 1 ≤ layers.length - 1 := by omega
      cases hn : layers.length - 1 with
      | zero => omega
      | succ n =>
        rw [generatorGo]
        simp [hdis]

/-- A trivial concrete clip engine over Nat parts, used by witnesses. -/
def natEngine : ClipEngine Nat :=
  { union := fun a b => some (a ++ b)
    difference := fun a _ => some a
    insetLayer := fun src _ _ _ => src }

/-- Claim C9 witness: with support disabled, both modifiers leave a concrete
two-layer stack untouched and report no error. -/
theorem claim_C9_witness :
    detectorModify natEngine false 0 100 0
        [(⟨[1], [("support", Attr.parts [2])]⟩ : PartLayer Nat), ⟨[3], []⟩]
      = Except.ok [⟨[1], [("support", Attr.parts [2])]⟩, ⟨[3], []⟩]
    ∧ generatorModify natEngine 50 2 false
        [(⟨[1], [("support", Attr.parts [2])]⟩ : PartLayer Nat), ⟨[3], []⟩]
      = Except.ok [⟨[1], [("support", Attr.parts [2])]⟩, ⟨[3], []⟩] :=
  claim_C9_disabled natEngine 0 100 0 50 2 false
    [⟨[1], [("support", Attr.parts [2])]⟩, ⟨[3], []⟩] rfl

/-- Claim C10: in every executed (non-skipped, error-free) generator
iteration whose computed support union is non-empty, the written layer is
layerNr-1 and its "support" attribute is unconditionally overwritten: it
becomes the support areas minus the interface parts when those are non-empty
and the empty LayerPart list otherwise, so whatever "support" value the
detector had stored on that layer never survives the write. -/
theorem claim_C10_overwrite {P : Type} (eng : ClipEngine P) (gap : Int)
    (interfaceLayers : Nat) (layers : List (PartLayer P)) (layerNr : Nat)
    (lastSupport : Option (List P)) (cs bs u as ip aw : List P)
    (hcur : generatorReadCurrent layers layerNr lastSupport = Except.ok cs)
    (hbelow : PartsAttribute (getLayer layers (layerNr - 1)) "support" = Except.ok bs)
    (hskip : (cs.isEmpty && bs.isEmpty) = false)
    (hu : eng.union cs bs = some u)
    (_hune : u ≠ [])
    (hd : eng.difference u (eng.insetLayer (getLayer layers (layerNr - 1)).parts
      (-gap) 1 (Int.tdiv gap 2)) = some as)
    (hir : genInterfaceAndRest eng interfaceLayers layers layerNr as = Except.ok (ip, aw)) :
    ∃ newAttrs,
      generatorStep eng gap interfaceLayers layers layerNr lastSupport =
        Except.ok (layers.set (layerNr - 1)
          { getLayer layers (layerNr - 1) with attributes := newAttrs },
          if as.isEmpty then none else some as)
      ∧ lookupAttr newAttrs "support"
          = some (Attr.parts (if aw.isEmpty then [] else aw)) := by
  have hskip2 : ¬((cs.isEmpty && bs.isEmpty) = true) := by simp [hskip]
  simp only [generatorStep, hcur, hbelow, if_neg hskip2, hu, hd, hir]
  refine ⟨_, rfl, ?_⟩
  by_cases haw : aw.isEmpty
  · rw [if_pos haw, if_pos haw]
    exact lookupAttr_setAttr_same _ "support" (Attr.parts [])
  · rw [if_neg haw, if_neg haw]
    exact lookupAttr_setAttr_same _ "support" (Attr.parts aw)

/-- Concrete layer stack for the C10 witness: layer 0 already carries a
detector-written "support" value, which the generator write replaces. -/
def genLayersW : List (PartLayer Nat) :=
  [⟨[], [("support", Attr.parts [9])]⟩, ⟨[], []⟩]

/-- Claim C10 witness: a concrete iteration at layerNr = 1 with carry [5];
the union [5, 9] is non-empty and layer 0's "support" is overwritten with the
computed remainder, replacing the detector value [9]. -/
theorem claim_C10_witness :
    ∃ newAttrs,
      generatorStep natEngine 40 1 genLayersW 1 (some [5]) =
        Except.ok (genLayersW.set 0
          { getLayer genLayersW 0 with attributes := newAttrs },
          if ([5, 9] : List Nat).isEmpty then none else some [5, 9])
      ∧ lookupAttr newAttrs "support"
          = some (Attr.parts (if ([5, 9] : List Nat).isEmpty then [] else [5, 9])) :=
  claim_C10_overwrite natEngine 40 1 genLayersW 1 (some [5]) [5] [9] [5, 9] [5, 9] [5, 9] [5, 9]
    rfl rfl rfl rfl (by decide) rfl rfl
